import Mathlib

/-!
Verification of the penguin placement program (grid facility placement):
a shallow embedding of the placement data model, the GUI mutators
(`add_tower`, `move_tower`, `remove_tower` of `MainCanvas`), the penalty
linearizer (`exp_expansion_1`, `exp_expansion_2` of `minlp.py`) and the
MINLP model construction (`objective_rule`, decode phase of `solve_minlp`),
together with theorems settling the specification claims.

Machine reals of the source (Python floats combined with `math.exp`) are
embedded as `ℝ` with `Real.exp`; radii are embedded as `ℚ` so the boundary
comparisons of the geometry are exact, matching the integer squared-distance
arithmetic of the source.
-/

namespace PPP

/-- Modelled from the spec: class `Point` of the missing file `ppp/point.py`.
An ordered pair of integers on the lattice; immutable value type; equality
by coordinate pair. -/
structure Point where
  x : Int
  y : Int
deriving DecidableEq, Repr, Inhabited

/-- Modelled from the spec: exact integer squared Euclidean distance
between two lattice points. -/
def squaredDistance (p q : Point) : Int :=
  (p.x - q.x) ^ 2 + (p.y - q.y) ^ 2

/-- Row-major enumeration of the full grid `[0, D-1] × [0, D-1]`
(x outer, y inner), shared by the geometry and by the decode loop of
`solve_minlp`. -/
def gridPoints (dim : Nat) : List Point :=
  (List.range dim).flatMap (fun (x : Nat) =>
    (List.range dim).map (fun (y : Nat) => Point.mk (x : Int) (y : Int)))

/-- Modelled from the spec: `Point.points_within_radius` of the missing file
`ppp/point.py`. Returns every lattice point `p` with `0 ≤ p.x < D`,
`0 ≤ p.y < D` and `squaredDistance(center, p) ≤ radius²` (closed disk,
boundary inclusive); the center itself is included whenever it is in
bounds, since its squared distance is `0 ≤ radius²`. -/
def Point.points_within_radius (center : Point) (radius : ℚ) (gridSide : Nat) : List Point :=
  (gridPoints gridSide).filter (fun p => decide ((squaredDistance center p : ℚ) ≤ radius ^ 2))

/-- Modelled from the spec: class `Instance` of the missing file
`ppp/instance.py` — grid side length, cities, coverage radius and penalty
radius; immutable. -/
structure Instance where
  grid_side_length : Nat
  cities : List Point
  coverage_radius : ℚ
  penalty_radius : ℚ

/-- Modelled from the spec: class `Solution` of the missing file
`ppp/solution.py` — a reference to its `Instance` (field named `instance`
in the source) and the list of tower points. -/
structure Solution where
  «instance» : Instance
  towers : List Point

/-- Modelled from the spec: `Solution.valid` — a placement is valid iff
every city has at least one tower within the coverage radius (closed disk,
exact integer squared distances). -/
def Solution.valid (s : Solution) : Bool :=
  s.«instance».cities.all (fun c =>
    s.towers.any (fun t =>
      decide ((squaredDistance c t : ℚ) ≤ s.«instance».coverage_radius ^ 2)))

/-- Modelled from the spec: the overlap count of the tower at index `i` —
the number of other towers (by index) within the penalty radius. -/
def overlapCount (r : ℚ) (towers : List Point) (i : Nat) : Nat :=
  ((List.range towers.length).filter (fun j =>
    decide (j ≠ i ∧
      (squaredDistance (towers.getD i default) (towers.getD j default) : ℚ) ≤ r ^ 2))).length

/-- Modelled from the spec: `Solution.penalty` — each tower contributes
`170 · exp(0.17 · w)` where `w` is its overlap count; the total penalty is
the sum of the contributions. -/
noncomputable def Solution.penalty (s : Solution) : ℝ :=
  ((List.range s.towers.length).map (fun i =>
    170 * Real.exp (0.17 * (overlapCount s.«instance».penalty_radius s.towers i : ℝ)))).sum

/-- Embedding of `exp_expansion_1` of `src/ppp/minlp.py`: the reference
point `w_0` is the literal constant `6` inside the function body;
`f0 = exp(0.17·w_0)`, `f1 = 0.17·f0`; returns `f0 + f1·(w − w_0)`. -/
noncomputable def exp_expansion_1 (w : ℝ) : ℝ :=
  let w_0 : ℝ := 6
  let f0 : ℝ := Real.exp (0.17 * w_0)
  let f1 : ℝ := 0.17 * f0
  f0 + f1 * (w - w_0)

/-- Embedding of `exp_expansion_2` of `src/ppp/minlp.py`: same constants,
plus `f2 = 0.17·f1` and the quadratic term `0.5·f2·(w − w_0)²`. -/
noncomputable def exp_expansion_2 (w : ℝ) : ℝ :=
  let w_0 : ℝ := 6
  let f0 : ℝ := Real.exp (0.17 * w_0)
  let f1 : ℝ := 0.17 * f0
  let f2 : ℝ := 0.17 * f1
  f0 + f1 * (w - w_0) + 0.5 * f2 * (w - w_0) ^ 2

/-- Modelled from the spec: the first-order expansion with the reference
overlap count `w_0` as an explicit parameter (the spec's
`expand(order, w0)` signature); the body is otherwise that of
`exp_expansion_1`. -/
noncomputable def exp_expansion_1_w0 (w_0 w : ℝ) : ℝ :=
  let f0 : ℝ := Real.exp (0.17 * w_0)
  let f1 : ℝ := 0.17 * f0
  f0 + f1 * (w - w_0)

/-- Modelled from the spec: the second-order expansion with the reference
overlap count `w_0` as an explicit parameter; the body is otherwise that
of `exp_expansion_2`. -/
noncomputable def exp_expansion_2_w0 (w_0 w : ℝ) : ℝ :=
  let f0 : ℝ := Real.exp (0.17 * w_0)
  let f1 : ℝ := 0.17 * f0
  let f2 : ℝ := 0.17 * f1
  f0 + f1 * (w - w_0) + 0.5 * f2 * (w - w_0) ^ 2

/-- Written from the spec's words (§4.4), for comparison with the source:
the polynomial `g(w) = f0 + f1·(w − w0)` with `f0 = 170·exp(0.17·w0)` and
`f1 = 0.17·f0`. -/
noncomputable def g_spec (w_0 w : ℝ) : ℝ :=
  170 * Real.exp (0.17 * w_0) + 0.17 * (170 * Real.exp (0.17 * w_0)) * (w - w_0)

/-- Embedding of the `w` table of `objective_rule` of `src/ppp/minlp.py`:
`w[x][y]` is the sum of the decision variables over
`points_within_radius(Point(x, y), penalty_radius, dim)` — the cell's own
variable is not removed from the sum. The binary assignment is embedded as
`t : Point → ℕ`. -/
def w_code (t : PPP.Point → Nat) (r : ℚ) (dim : Nat) (x y : Int) : Nat :=
  (((PPP.Point.mk x y).points_within_radius r dim).map t).sum

/-- Embedding of the cost of `objective_rule` of `src/ppp/minlp.py`:
`cost = Σ_{x,y} 170.0 · t[x,y] · exp_expansion_1(w[x][y])`. -/
noncomputable def objective_code (dim : Nat) (r : ℚ) (t : PPP.Point → Nat) : ℝ :=
  ∑ x in Finset.range dim, ∑ y in Finset.range dim,
    170 * (t (PPP.Point.mk x y) : ℝ) * exp_expansion_1 (w_code t r dim x y : ℝ)

/-- Written from the claim's words, for comparison with the source: the
overlap sum over `points_within_radius((x,y), penalty_radius, D)`
excluding the cell `(x, y)` itself. -/
def w_claim (t : PPP.Point → Nat) (r : ℚ) (dim : Nat) (x y : Int) : Nat :=
  ((((PPP.Point.mk x y).points_within_radius r dim).filter
    (fun p => decide (p ≠ PPP.Point.mk x y))).map t).sum

/-- Written from the claim's words, for comparison with the source: the
objective `Σ_{x,y} t[x,y] · g(w(x,y))` with the spec's `g` at `w0 = 6` and
`w` excluding the cell's own variable. -/
noncomputable def objective_claim (dim : Nat) (r : ℚ) (t : PPP.Point → Nat) : ℝ :=
  ∑ x in Finset.range dim, ∑ y in Finset.range dim,
    (t (PPP.Point.mk x y) : ℝ) * g_spec 6 (w_claim t r dim x y : ℝ)

/-- Status reported by the external mixed-integer solver for a solve call;
the source treats the solver as a black box (`solver.solve(model)`), so the
status is an opaque input to the decode phase. -/
inductive SolverStatus where
  | ok
  | infeasible
  | maxIterationsExceeded
deriving DecidableEq, Repr

/-- The observable outcome of the external solve call: a status and the
final value of each binary variable `t[x, y]` (`none` models a variable the
solver left without a value). -/
structure SolverResult where
  status : SolverStatus
  value : PPP.Point → Option Int

/-- Embedding of the decode phase of `solve_minlp` of `src/ppp/minlp.py`
(lines after `solver.solve`): every cell whose variable has value `1` is
collected, in row-major order, into a `Solution`; the solver status is
never consulted. -/
def solve_minlp (inst : PPP.Instance) (res : SolverResult) : PPP.Solution :=
  { «instance» := inst
    towers := (PPP.gridPoints inst.grid_side_length).filter
      (fun p => res.value p == some 1) }

/-- The tower mapping of `MainCanvas` (`self.towers`), a Python dict from
integer tower id to `Point`, embedded as an insertion-ordered association
list. -/
abbrev Towers := List (Nat × PPP.Point)

/-- Python `dict` lookup `m[k]`: the value at the first (unique) matching
key, if any. -/
def dictLookup : Towers → Nat → Option PPP.Point
  | [], _ => none
  | kv :: rest, k => if kv.1 = k then some kv.2 else dictLookup rest k

/-- Python `dict` assignment `m[k] = v`: replaces the value in place when
the key is present, otherwise appends the pair at the end. -/
def dictInsert : Towers → Nat → PPP.Point → Towers
  | [], k, v => [(k, v)]
  | kv :: rest, k, v => if kv.1 = k then (k, v) :: rest else kv :: dictInsert rest k v

/-- Python `del m[k]`: removes the entry with the given key. -/
def dictErase : Towers → Nat → Towers
  | [], _ => []
  | kv :: rest, k => if kv.1 = k then dictErase rest k else kv :: dictErase rest k

/-- Python `m.keys()` in insertion order. -/
def dictKeys (m : Towers) : List Nat :=
  m.map Prod.fst

/-- Python `m.values()` in insertion order. -/
def dictValues (m : Towers) : List PPP.Point :=
  m.map Prod.snd

/-- Embedding of `MainCanvas.move_tower` of `src/ppp/gui/main_gui.py`: the
current point of tower `id` is displaced by `(dx, dy)`; if the new point is
out of the grid bounds the method returns early (failure, mapping
unchanged), otherwise `self.towers[id]` is reassigned. The boolean records
which of the two return paths was taken. (The source looks `id` up
directly; an id absent from the mapping is unreachable in the GUI, and is
embedded as the failure path.) -/
def move_tower (grid_dim : Nat) (m : Towers) (id : Nat) (dx dy : Int) : Bool × Towers :=
  match dictLookup m id with
  | none => (false, m)
  | some curr =>
    let new_tower : PPP.Point := ⟨curr.x + dx, curr.y + dy⟩
    if new_tower.x < 0 ∨ (grid_dim : Int) ≤ new_tower.x ∨
       new_tower.y < 0 ∨ (grid_dim : Int) ≤ new_tower.y then
      (false, m)
    else
      (true, dictInsert m id new_tower)

/-- Embedding of `MainCanvas.add_tower` of `src/ppp/gui/main_gui.py`,
taking the already-snapped grid coordinates `(x, y)` of the click: the
method returns early (failure, mapping unchanged) when the cell is already
occupied by a tower, or when it is out of the grid bounds; otherwise the
new tower is stored under the id `len(self.towers)`. Returns the assigned
id and the new mapping on success. -/
def add_tower (grid_dim : Nat) (m : Towers) (x y : Int) : Option (Nat × Towers) :=
  let p : PPP.Point := ⟨x, y⟩
  if p ∈ dictValues m then
    none
  else if x < 0 ∨ (grid_dim : Int) ≤ x ∨ y < 0 ∨ (grid_dim : Int) ≤ y then
    none
  else
    some (m.length, dictInsert m m.length p)

/-- Embedding of `MainCanvas.remove_tower` of `src/ppp/gui/main_gui.py`
with tower `id` selected: `del self.towers[id]`. -/
def remove_tower (m : Towers) (id : Nat) : Towers :=
  dictErase m id

/-- The state the GUI keeps: the canvas's tower mapping together with the
validity and cost currently displayed by the info frame. -/
structure AppState where
  towers : Towers
  shownValid : Bool
  shownCost : ℝ

/-- Embedding of `Application.update_solution` followed by
`update_info_frame`: a fresh `Solution` is built from the given towers and
the displayed validity and cost are recomputed from it. -/
noncomputable def update_solution (inst : PPP.Instance) (m : Towers) : AppState :=
  let sol : PPP.Solution := { «instance» := inst, towers := dictValues m }
  { towers := m, shownValid := sol.valid, shownCost := sol.penalty }

/-- `MainCanvas.move_tower` as seen from the application: on the success
path the canvas calls `self.parent.update_solution(self.towers.values())`,
on the failure path it returns before doing so. -/
noncomputable def gui_move_tower (inst : PPP.Instance) (s : AppState) (id : Nat)
    (dx dy : Int) : AppState :=
  match move_tower inst.grid_side_length s.towers id dx dy with
  | (true, m) => update_solution inst m
  | (false, _) => s

/-- `MainCanvas.add_tower` as seen from the application: on success the
canvas calls `self.parent.update_solution(self.towers.values())`, on the
early-return paths it does not. -/
noncomputable def gui_add_tower (inst : PPP.Instance) (s : AppState) (x y : Int) : AppState :=
  match add_tower inst.grid_side_length s.towers x y with
  | some (_, m) => update_solution inst m
  | none => s

/-- `MainCanvas.remove_tower` as seen from the application: the tower is
deleted and `self.parent.update_solution(self.towers.values())` is
called. -/
noncomputable def gui_remove_tower (inst : PPP.Instance) (s : AppState) (id : Nat) : AppState :=
  update_solution inst (remove_tower s.towers id)

theorem dictLookup_insert_self (m : Towers) (k : Nat) (v : PPP.Point) :
    dictLookup (dictInsert m k v) k = some v := by
  induction m with
  | nil => simp [dictInsert, dictLookup]
  | cons kv rest ih =>
    by_cases h : kv.1 = k
    · simp [dictInsert, h, dictLookup]
    · simp [dictInsert, h, dictLookup, ih]

theorem dictLookup_insert_ne (m : Towers) (k j : Nat) (v : PPP.Point) (h : j ≠ k) :
    dictLookup (dictInsert m k v) j = dictLookup m j := by
  have h2 : k ≠ j := Ne.symm h
  induction m with
  | nil => simp [dictInsert, dictLookup, h2]
  | cons kv rest ih =>
    by_cases hk : kv.1 = k
    · simp [dictInsert, hk, dictLookup, h2]
    · by_cases hj : kv.1 = j
      · simp [dictInsert, hk, dictLookup, hj, h]
      · simp [dictInsert, hk, dictLookup, hj, ih]

theorem dictInsert_of_not_mem (m : Towers) (k : Nat) (v : PPP.Point)
    (h : k ∉ dictKeys m) : dictInsert m k v = m ++ [(k, v)] := by
  induction m with
  | nil => simp [dictInsert]
  | cons kv rest ih =>
    simp only [dictKeys, List.map_cons, List.mem_cons, not_or] at h
    simp [dictInsert, Ne.symm h.1, ih (by simpa [dictKeys] using h.2)]

theorem dictErase_of_not_mem (m : Towers) (k : Nat) (h : k ∉ dictKeys m) :
    dictErase m k = m := by
  induction m with
  | nil => simp [dictErase]
  | cons kv rest ih =>
    simp only [dictKeys, List.map_cons, List.mem_cons, not_or] at h
    simp [dictErase, Ne.symm h.1, ih (by simpa [dictKeys] using h.2)]

theorem dictErase_append (a b : Towers) (k : Nat) :
    dictErase (a ++ b) k = dictErase a k ++ dictErase b k := by
  induction a with
  | nil => simp [dictErase]
  | cons kv rest ih =>
    by_cases h : kv.1 = k
    · simp [dictErase, h, ih]
    · simp [dictErase, h, ih]

theorem dictInsert_length_of_mem (m : Towers) (k : Nat) (v : PPP.Point)
    (h : k ∈ dictKeys m) : (dictInsert m k v).length = m.length := by
  induction m with
  | nil => simp [dictKeys] at h
  | cons kv rest ih =>
    by_cases hk : kv.1 = k
    · simp [dictInsert, hk]
    · simp only [dictKeys, List.map_cons, List.mem_cons] at h
      rcases h with h | h
      · exact absurd h.symm hk
      · simp [dictInsert, hk, ih (by simpa [dictKeys] using h)]

theorem dictInsert_length_of_not_mem (m : Towers) (k : Nat) (v : PPP.Point)
    (h : k ∉ dictKeys m) : (dictInsert m k v).length = m.length + 1 := by
  rw [dictInsert_of_not_mem m k v h]
  simp

theorem add_tower_eq (grid : Nat) (m : Towers) (x y : Int) (id : Nat) (m2 : Towers)
    (h : add_tower grid m x y = some (id, m2)) :
    id = m.length ∧ m2 = dictInsert m m.length (PPP.Point.mk x y) := by
  by_cases h1 : (PPP.Point.mk x y) ∈ dictValues m
  · simp [add_tower, h1] at h
  · by_cases h2 : x < 0 ∨ (grid : Int) ≤ x ∨ y < 0 ∨ (grid : Int) ≤ y
    · simp [add_tower, h1, h2] at h
    · simp only [add_tower, if_neg h1, if_neg h2, Option.some.injEq, Prod.mk.injEq] at h
      exact ⟨h.1.symm, h.2.symm⟩

/-- C1 counterexample: evaluating the polynomial returned by the order-1
expansion at the reference point `w0 = 6` yields `exp(0.17·6)`, not
`170·exp(0.17·6)` as the claim states — the factor 170 is absent from
`exp_expansion_1` (it is applied separately inside `objective_rule`). -/
theorem C1_counterexample : exp_expansion_1 6 ≠ 170 * Real.exp (0.17 * 6) := by
  simp only [exp_expansion_1]
  intro h
  nlinarith [Real.exp_pos ((0.17 : ℝ) * 6)]

/-- C1 amended: the order-1 expansion computes `f0 = exp(0.17·w0)` (without
the factor 170) and `f1 = 0.17·f0`, so `g(w0) = exp(0.17·w0)`; the factor
170 is applied by the objective term, so each objective summand at the
reference point equals `t · 170·exp(0.17·w0)`. -/
theorem C1_amended_thm :
    exp_expansion_1 6 = Real.exp (0.17 * 6) ∧
      ∀ t : ℝ, 170 * t * exp_expansion_1 6 = t * (170 * Real.exp (0.17 * 6)) := by
  constructor
  · simp [exp_expansion_1]
  · intro t
    simp only [exp_expansion_1]
    ring

/-- C7 counterexample: the reference overlap count is not an overridable
input of the expansion — `exp_expansion_1` takes only `w` and fixes
`w_0 = 6` internally, so at `w = 0` it disagrees with the expansion around
an overridden reference point `w0 = 3`. -/
theorem C7_counterexample : exp_expansion_1 0 ≠ exp_expansion_1_w0 3 0 := by
  simp only [exp_expansion_1, exp_expansion_1_w0]
  intro h
  nlinarith [Real.exp_pos ((0.17 : ℝ) * 6), Real.exp_pos ((0.17 : ℝ) * 3)]

/-- C7 amended: the reference overlap count is the constant 6 hardcoded
inside `exp_expansion_1` and `exp_expansion_2`; each equals the
explicitly-parametrized expansion instantiated at `w0 = 6` and at no other
reference point. -/
theorem C7_amended_thm :
    ∀ w : ℝ, exp_expansion_1 w = exp_expansion_1_w0 6 w ∧
      exp_expansion_2 w = exp_expansion_2_w0 6 w := by
  intro w
  constructor
  · simp [exp_expansion_1, exp_expansion_1_w0]
  · simp [exp_expansion_2, exp_expansion_2_w0]

/-- C8: for every `w` and `w0`, the order-2 expansion equals the order-1
expansion plus `0.5·f2·(w − w0)²` with `f2 = 0.17·f1 = 0.17·0.17·exp(0.17·w0)`;
the added curvature term is strictly positive for `w ≠ w0`, and the two
expansions agree exactly at `w = w0`; the source's `exp_expansion_1` and
`exp_expansion_2` are the instances of these expansions at `w0 = 6`. -/
theorem C8_thm :
    ∀ w_0 w : ℝ,
      exp_expansion_2_w0 w_0 w =
        exp_expansion_1_w0 w_0 w +
          0.5 * (0.17 * (0.17 * Real.exp (0.17 * w_0))) * (w - w_0) ^ 2 ∧
      (w ≠ w_0 → 0 < 0.5 * (0.17 * (0.17 * Real.exp (0.17 * w_0))) * (w - w_0) ^ 2) ∧
      exp_expansion_2_w0 w_0 w_0 = exp_expansion_1_w0 w_0 w_0 ∧
      exp_expansion_1 w = exp_expansion_1_w0 6 w ∧
      exp_expansion_2 w = exp_expansion_2_w0 6 w := by
  intro w_0 w
  refine ⟨?_, ?_, ?_, ?_, ?_⟩
  · simp only [exp_expansion_2_w0, exp_expansion_1_w0]
  · intro h
    have h2 : w - w_0 ≠ 0 := sub_ne_zero.mpr h
    have h3 : 0 < (w - w_0) ^ 2 := by
      rcases lt_or_gt_of_ne h2 with h4 | h4
      · nlinarith
      · nlinarith
    have h5 : (0 : ℝ) < 0.5 * (0.17 * (0.17 * Real.exp (0.17 * w_0))) := by positivity
    exact mul_pos h5 h3
  · simp only [exp_expansion_2_w0, exp_expansion_1_w0]
    ring
  · simp [exp_expansion_1, exp_expansion_1_w0]
  · simp [exp_expansion_2, exp_expansion_2_w0]

/-- C8 witness: the curvature term at the concrete reference point `w0 = 0`
and argument `w = 1 ≠ w0` is strictly positive. -/
theorem C8_witness :
    0 < 0.5 * (0.17 * (0.17 * Real.exp (0.17 * (0 : ℝ)))) * ((1 : ℝ) - 0) ^ 2 :=
  (C8_thm 0 1).2.1 (by norm_num)

/-- C2 counterexample: when the external solver reports infeasibility and
leaves every binary variable at 0, `solve_minlp` silently returns the
empty placement decoded from the assignment instead of a distinct
"solver did not converge" outcome. -/
theorem C2_counterexample :
    (solve_minlp ⟨1, [PPP.Point.mk 0 0], 1, 1⟩
        ⟨SolverStatus.infeasible, fun _ => some 0⟩).towers = [] := by
  decide

/-- C2 amended: the decode phase of `solve_minlp` never consults the
solver status — two solver outcomes with the same assignment decode to the
same placement regardless of whether either converged, so non-convergence
is not surfaced as a distinct outcome. -/
theorem C2_amended_thm (inst : PPP.Instance) (res res2 : SolverResult)
    (h : res.value = res2.value) : solve_minlp inst res = solve_minlp inst res2 := by
  simp [solve_minlp, h]

/-- C2 witness: an infeasible outcome and a converged outcome with the
same all-zero assignment decode identically. -/
theorem C2_witness :
    solve_minlp ⟨1, [PPP.Point.mk 0 0], 1, 1⟩ ⟨SolverStatus.infeasible, fun _ => some 0⟩ =
      solve_minlp ⟨1, [PPP.Point.mk 0 0], 1, 1⟩ ⟨SolverStatus.ok, fun _ => some 0⟩ :=
  C2_amended_thm ⟨1, [PPP.Point.mk 0 0], 1, 1⟩ _ _ rfl

/-- C3 counterexample: on the 1×1 grid with penalty radius 0 and the
all-ones assignment, the objective built by `objective_rule` differs from
the claim's objective in which `w(x, y)` excludes the cell's own decision
variable — the source sums over all of `points_within_radius`, which
contains the center. -/
theorem C3_counterexample :
    objective_code 1 0 (fun _ => 1) ≠ objective_claim 1 0 (fun _ => 1) := by
  have hc : w_code (fun _ => 1) 0 1 0 0 = 1 := by decide
  have hl : w_claim (fun _ => 1) 0 1 0 0 = 0 := by decide
  simp only [objective_code, objective_claim, Finset.sum_range_one, Nat.cast_zero,
    Int.cast_zero, hc, hl]
  simp only [exp_expansion_1, g_spec]
  intro h
  nlinarith [Real.exp_pos ((0.17 : ℝ) * 6)]

/-- C3 amended: the objective is the sum over all cells of
`t(x,y) · g(w(x,y))` with the spec's `g` at `w0 = 6`, where `w(x,y)` is
the sum of the decision variables over
`points_within_radius((x,y), penalty_radius, D)` including the cell's own
variable: each in-bounds cell belongs to its own radius list. -/
theorem C3_amended_thm (dim : Nat) (r : ℚ) (t : PPP.Point → Nat) :
    objective_code dim r t =
      (∑ x in Finset.range dim, ∑ y in Finset.range dim,
        (t (PPP.Point.mk x y) : ℝ) * g_spec 6 (w_code t r dim x y : ℝ)) ∧
    ∀ x y : Nat, x < dim → y < dim →
      PPP.Point.mk x y ∈ (PPP.Point.mk x y).points_within_radius r dim := by
  constructor
  · refine Finset.sum_congr rfl fun x hx => Finset.sum_congr rfl fun y hy => ?_
    simp only [exp_expansion_1, g_spec]
    ring
  · intro x y hxd hyd
    simp only [PPP.Point.points_within_radius, List.mem_filter, decide_eq_true_eq]
    constructor
    · unfold gridPoints
      exact List.mem_flatMap.mpr
        ⟨x, List.mem_range.mpr hxd, List.mem_map.mpr ⟨y, List.mem_range.mpr hyd, rfl⟩⟩
    · simp only [squaredDistance, sub_self]
      norm_num
      positivity

/-- C3 witness: the single cell of the 1×1 grid belongs to its own
penalty-radius list at radius 0. -/
theorem C3_witness :
    PPP.Point.mk 0 0 ∈ (PPP.Point.mk 0 0).points_within_radius 0 1 :=
  (C3_amended_thm 1 0 (fun _ => 1)).2 0 0 (by decide) (by decide)

/-- C4 counterexample: from the reachable mapping `{1: (2,2)}` (obtained by
removing tower 0 from `{0: (0,0), 1: (2,2)}`), a successful add is assigned
id `len(towers) = 1`, which overwrites the existing tower at id 1; removing
id 1 immediately afterwards yields the empty mapping, not the prior
mapping `{1: (2,2)}`. -/
theorem C4_counterexample :
    remove_tower [(0, PPP.Point.mk 0 0), (1, PPP.Point.mk 2 2)] 0 =
      [(1, PPP.Point.mk 2 2)] ∧
    add_tower 3 [(1, PPP.Point.mk 2 2)] 0 0 = some (1, [(1, PPP.Point.mk 0 0)]) ∧
    remove_tower [(1, PPP.Point.mk 0 0)] 1 = [] ∧
    ([] : Towers) ≠ [(1, PPP.Point.mk 2 2)] := by
  decide

/-- C4 amended: when the id the add assigns (the current size of the
mapping) is not already a key of the mapping, removing the tower
immediately after adding it restores the prior tower mapping — and hence
the prior validity and penalty values — exactly. -/
theorem C4_amended_thm (inst : PPP.Instance) (grid : Nat) (m : Towers) (x y : Int)
    (id : Nat) (m2 : Towers)
    (hfresh : m.length ∉ dictKeys m)
    (hadd : add_tower grid m x y = some (id, m2)) :
    remove_tower m2 id = m ∧
    PPP.Solution.valid ⟨inst, dictValues (remove_tower m2 id)⟩ =
      PPP.Solution.valid ⟨inst, dictValues m⟩ ∧
    PPP.Solution.penalty ⟨inst, dictValues (remove_tower m2 id)⟩ =
      PPP.Solution.penalty ⟨inst, dictValues m⟩ := by
  obtain ⟨hid, hm2⟩ := add_tower_eq grid m x y id m2 hadd
  have hrest : remove_tower m2 id = m := by
    subst hid hm2
    rw [remove_tower, dictInsert_of_not_mem m m.length _ hfresh, dictErase_append,
      dictErase_of_not_mem m m.length hfresh]
    simp [dictErase]
  refine ⟨hrest, ?_, ?_⟩ <;> rw [hrest]

/-- C4 witness: adding to `{5: (0,0)}` assigns the fresh id 1; removing it
restores the mapping, validity and penalty exactly. -/
theorem C4_witness :
    remove_tower [(5, PPP.Point.mk 0 0), (1, PPP.Point.mk 1 1)] 1 =
      [(5, PPP.Point.mk 0 0)] ∧
    PPP.Solution.valid ⟨⟨3, [], 1, 1⟩,
        dictValues (remove_tower [(5, PPP.Point.mk 0 0), (1, PPP.Point.mk 1 1)] 1)⟩ =
      PPP.Solution.valid ⟨⟨3, [], 1, 1⟩, dictValues [(5, PPP.Point.mk 0 0)]⟩ ∧
    PPP.Solution.penalty ⟨⟨3, [], 1, 1⟩,
        dictValues (remove_tower [(5, PPP.Point.mk 0 0), (1, PPP.Point.mk 1 1)] 1)⟩ =
      PPP.Solution.penalty ⟨⟨3, [], 1, 1⟩, dictValues [(5, PPP.Point.mk 0 0)]⟩ :=
  C4_amended_thm ⟨3, [], 1, 1⟩ 3 [(5, PPP.Point.mk 0 0)] 1 1 1
    [(5, PPP.Point.mk 0 0), (1, PPP.Point.mk 1 1)] (by decide) (by decide)

/-- C5 counterexample: moving tower 0 one step right onto the cell `(1,0)`
already occupied by tower 1 succeeds — `move_tower` checks only grid
bounds, never occupancy — and the tower mapping changes. -/
theorem C5_counterexample :
    PPP.Point.mk 1 0 ∈ dictValues [(0, PPP.Point.mk 0 0), (1, PPP.Point.mk 1 0)] ∧
    move_tower 3 [(0, PPP.Point.mk 0 0), (1, PPP.Point.mk 1 0)] 0 1 0 =
      (true, [(0, PPP.Point.mk 1 0), (1, PPP.Point.mk 1 0)]) ∧
    [(0, PPP.Point.mk 1 0), (1, PPP.Point.mk 1 0)] ≠
      [(0, PPP.Point.mk 0 0), (1, PPP.Point.mk 1 0)] := by
  decide

/-- C5 amended: placing a tower on an occupied cell via `add_tower` is
reported as failure (early return, no exception) with the mapping left
unchanged; `move_tower` performs no occupancy check and can move a tower
onto an occupied cell. -/
theorem C5_amended_thm (grid : Nat) (m : Towers) (x y : Int)
    (h : PPP.Point.mk x y ∈ dictValues m) : add_tower grid m x y = none := by
  simp [add_tower, h]

/-- C5 witness: adding at the occupied cell `(1,1)` fails. -/
theorem C5_witness : add_tower 3 [(0, PPP.Point.mk 1 1)] 1 1 = none :=
  C5_amended_thm 3 [(0, PPP.Point.mk 1 1)] 1 1 (by decide)

/-- C6: for every mapping and tower id in it, `move_tower` fails — taking
the early-return path, never raising — exactly when the displaced point is
outside `[0, D-1] × [0, D-1]`, leaving the mapping unchanged; otherwise it
succeeds, the moved tower's position becomes the displaced point, and
every other id maps to its previous point. -/
theorem C6_thm (grid : Nat) (m : Towers) (id : Nat) (dx dy : Int) (curr : PPP.Point)
    (hm : dictLookup m id = some curr) :
    ((curr.x + dx < 0 ∨ (grid : Int) ≤ curr.x + dx ∨
        curr.y + dy < 0 ∨ (grid : Int) ≤ curr.y + dy) →
      move_tower grid m id dx dy = (false, m)) ∧
    (¬(curr.x + dx < 0 ∨ (grid : Int) ≤ curr.x + dx ∨
        curr.y + dy < 0 ∨ (grid : Int) ≤ curr.y + dy) →
      (move_tower grid m id dx dy).1 = true ∧
      dictLookup (move_tower grid m id dx dy).2 id =
        some (PPP.Point.mk (curr.x + dx) (curr.y + dy)) ∧
      ∀ j, j ≠ id → dictLookup (move_tower grid m id dx dy).2 j = dictLookup m j) := by
  constructor
  · intro hob
    simp [move_tower, hm, hob]
  · intro hib
    have hmv : move_tower grid m id dx dy =
        (true, dictInsert m id (PPP.Point.mk (curr.x + dx) (curr.y + dy))) := by
      simp [move_tower, hm, hib]
    rw [hmv]
    exact ⟨rfl, dictLookup_insert_self m id _,
      fun j hj => dictLookup_insert_ne m id j _ hj⟩

/-- C6 witness: moving tower 0 of `{0: (0,0)}` left fails out of bounds
with the mapping unchanged; moving tower 0 of `{0: (1,1)}` right succeeds,
repositions it to `(2,1)`, and leaves the (absent) id 1 unaffected. -/
theorem C6_witness :
    move_tower 3 [(0, PPP.Point.mk 0 0)] 0 (-1) 0 = (false, [(0, PPP.Point.mk 0 0)]) ∧
    (move_tower 3 [(0, PPP.Point.mk 1 1)] 0 1 0).1 = true ∧
    dictLookup (move_tower 3 [(0, PPP.Point.mk 1 1)] 0 1 0).2 0 =
      some (PPP.Point.mk 2 1) ∧
    dictLookup (move_tower 3 [(0, PPP.Point.mk 1 1)] 0 1 0).2 1 =
      dictLookup [(0, PPP.Point.mk 1 1)] 1 := by
  have h1 := (C6_thm 3 [(0, PPP.Point.mk 0 0)] 0 (-1) 0 (PPP.Point.mk 0 0) (by decide)).1
    (by decide)
  have h2 := (C6_thm 3 [(0, PPP.Point.mk 1 1)] 0 1 0 (PPP.Point.mk 1 1) (by decide)).2
    (by decide)
  exact ⟨h1, h2.1, h2.2.1, h2.2.2 1 (by decide)⟩

/-- C10 counterexample: after removing id 1 — not the largest key — from
the mapping `{1: (2,2), 2: (0,2)}`, the next add is assigned
id `len = 1`, which is not an existing key of the remaining mapping
`{2: (0,2)}`; the mapping is enlarged rather than an existing tower
replaced. -/
theorem C10_counterexample :
    remove_tower [(1, PPP.Point.mk 2 2), (2, PPP.Point.mk 0 2)] 1 =
      [(2, PPP.Point.mk 0 2)] ∧
    add_tower 3 [(2, PPP.Point.mk 0 2)] 1 1 =
      some (1, [(2, PPP.Point.mk 0 2), (1, PPP.Point.mk 1 1)]) ∧
    (1 : Nat) ∉ dictKeys [(2, PPP.Point.mk 0 2)] ∧
    ([(2, PPP.Point.mk 0 2), (1, PPP.Point.mk 1 1)] : Towers).length =
      ([(2, PPP.Point.mk 0 2)] : Towers).length + 1 := by
  decide

/-- C10 amended: a successful add assigns the id `len(towers)` and stores
the new point there; this replaces an existing tower without enlarging the
mapping precisely when that id is already a key, and otherwise enlarges
the mapping by one entry. -/
theorem C10_amended_thm (grid : Nat) (m : Towers) (x y : Int) (id : Nat) (m2 : Towers)
    (hadd : add_tower grid m x y = some (id, m2)) :
    id = m.length ∧
    dictLookup m2 m.length = some (PPP.Point.mk x y) ∧
    (m.length ∈ dictKeys m → m2.length = m.length) ∧
    (m.length ∉ dictKeys m → m2.length = m.length + 1) := by
  obtain ⟨hid, hm2⟩ := add_tower_eq grid m x y id m2 hadd
  subst hm2
  refine ⟨hid, dictLookup_insert_self m m.length _, ?_, ?_⟩
  · intro h
    exact dictInsert_length_of_mem m m.length _ h
  · intro h
    exact dictInsert_length_of_not_mem m m.length _ h

/-- C10 witness: adding to `{1: (2,2)}` assigns id 1 and replaces the
existing tower (size stays 1); adding to `{5: (2,2)}` assigns id 1 and
enlarges the mapping (size becomes 2). -/
theorem C10_witness :
    ((1 : Nat) = ([(1, PPP.Point.mk 2 2)] : Towers).length ∧
      dictLookup [(1, PPP.Point.mk 0 0)] 1 = some (PPP.Point.mk 0 0) ∧
      ([(1, PPP.Point.mk 0 0)] : Towers).length = 1) ∧
    ((1 : Nat) = ([(5, PPP.Point.mk 2 2)] : Towers).length ∧
      dictLookup [(5, PPP.Point.mk 2 2), (1, PPP.Point.mk 0 0)] 1 =
        some (PPP.Point.mk 0 0) ∧
      ([(5, PPP.Point.mk 2 2), (1, PPP.Point.mk 0 0)] : Towers).length = 1 + 1) := by
  have h1 := C10_amended_thm 3 [(1, PPP.Point.mk 2 2)] 0 0 1
    [(1, PPP.Point.mk 0 0)] (by decide)
  have h2 := C10_amended_thm 3 [(5, PPP.Point.mk 2 2)] 0 0 1
    [(5, PPP.Point.mk 2 2), (1, PPP.Point.mk 0 0)] (by decide)
  exact ⟨⟨h1.1, h1.2.1, h1.2.2.1 (by decide)⟩, ⟨h2.1, h2.2.1, h2.2.2.2 (by decide)⟩⟩

/-- C9: after every successful mutation — move, add or remove of a tower —
the displayed validity and cost equal `Solution.valid` and
`Solution.penalty` recomputed on the post-mutation tower mapping (each
mutator calls `update_solution` synchronously on its success path), and
the state's mapping is exactly the mutator's post-mutation mapping. -/
theorem C9_thm (inst : PPP.Instance) (s : AppState) (id : Nat) (dx dy : Int) (x y : Int) :
    ((move_tower inst.grid_side_length s.towers id dx dy).1 = true →
      (gui_move_tower inst s id dx dy).shownValid =
        PPP.Solution.valid ⟨inst, dictValues (gui_move_tower inst s id dx dy).towers⟩ ∧
      (gui_move_tower inst s id dx dy).shownCost =
        PPP.Solution.penalty ⟨inst, dictValues (gui_move_tower inst s id dx dy).towers⟩ ∧
      (gui_move_tower inst s id dx dy).towers =
        (move_tower inst.grid_side_length s.towers id dx dy).2) ∧
    (∀ idv m2, add_tower inst.grid_side_length s.towers x y = some (idv, m2) →
      (gui_add_tower inst s x y).shownValid =
        PPP.Solution.valid ⟨inst, dictValues (gui_add_tower inst s x y).towers⟩ ∧
      (gui_add_tower inst s x y).shownCost =
        PPP.Solution.penalty ⟨inst, dictValues (gui_add_tower inst s x y).towers⟩ ∧
      (gui_add_tower inst s x y).towers = m2) ∧
    ((gui_remove_tower inst s id).shownValid =
        PPP.Solution.valid ⟨inst, dictValues (gui_remove_tower inst s id).towers⟩ ∧
      (gui_remove_tower inst s id).shownCost =
        PPP.Solution.penalty ⟨inst, dictValues (gui_remove_tower inst s id).towers⟩ ∧
      (gui_remove_tower inst s id).towers = remove_tower s.towers id) := by
  refine ⟨?_, ?_, ?_⟩
  · intro h
    rcases hmv : move_tower inst.grid_side_length s.towers id dx dy with ⟨b, m⟩
    rw [hmv] at h
    subst h
    simp [gui_move_tower, hmv, update_solution]
  · intro idv m2 h
    simp [gui_add_tower, h, update_solution]
  · simp [gui_remove_tower, update_solution]

/-- C9 witness: on a concrete instance and state, a successful move shows
the recomputed validity, a successful add shows the recomputed cost, and a
remove leaves exactly the post-removal mapping. -/
theorem C9_witness :
    ((gui_move_tower ⟨3, [PPP.Point.mk 0 0], 1, 1⟩
        ⟨[(0, PPP.Point.mk 1 1)], true, 0⟩ 0 1 0).shownValid =
      PPP.Solution.valid ⟨⟨3, [PPP.Point.mk 0 0], 1, 1⟩,
        dictValues (gui_move_tower ⟨3, [PPP.Point.mk 0 0], 1, 1⟩
          ⟨[(0, PPP.Point.mk 1 1)], true, 0⟩ 0 1 0).towers⟩) ∧
    ((gui_add_tower ⟨3, [PPP.Point.mk 0 0], 1, 1⟩
        ⟨[(0, PPP.Point.mk 1 1)], true, 0⟩ 0 0).shownCost =
      PPP.Solution.penalty ⟨⟨3, [PPP.Point.mk 0 0], 1, 1⟩,
        dictValues (gui_add_tower ⟨3, [PPP.Point.mk 0 0], 1, 1⟩
          ⟨[(0, PPP.Point.mk 1 1)], true, 0⟩ 0 0).towers⟩) ∧
    ((gui_remove_tower ⟨3, [PPP.Point.mk 0 0], 1, 1⟩
        ⟨[(0, PPP.Point.mk 1 1)], true, 0⟩ 0).towers =
      remove_tower [(0, PPP.Point.mk 1 1)] 0) := by
  have h := C9_thm ⟨3, [PPP.Point.mk 0 0], 1, 1⟩ ⟨[(0, PPP.Point.mk 1 1)], true, 0⟩ 0 1 0 0 0
  exact ⟨(h.1 (by decide)).1,
    (h.2.1 1 [(0, PPP.Point.mk 1 1), (1, PPP.Point.mk 0 0)] (by decide)).2.1,
    h.2.2.2.2⟩

end PPP
